import Mathlib

/-!
Verification development for the igl-nanovg rendering backend.

We give a shallow embedding of the GLSL shader bodies found in
`src/src/shader_opengl.h` and of the logical-draw-size computation in
`src/example/NanovgSession.cpp`.  GLSL floats are modelled by exact
rationals (`ℚ`); the GPU square root used by `length` is an explicit
function parameter `sqrtf : ℚ → ℚ`, since every claim under scrutiny is
independent of the particular square-root values.  Texture sampling is
modelled by a function parameter `tex : Vec2 → Vec4`.

The two fragment-shader string bodies `openglNoAntiAliasingFragmentShaderBody`
and `openglAntiAliasingFragmentShaderBody` each declare their own copies of
the helpers `scissorMask`, `sdroundrect` and `strokeMask`; we transcribe each
copy separately (suffix `NoAA` / `AA`) so that cross-variant agreement is a
theorem, not an artifact of sharing.
-/

/-- A GLSL `vec2` over exact rationals. -/
structure Vec2 where
  x : ℚ
  y : ℚ
deriving DecidableEq

/-- A GLSL `vec3` over exact rationals. -/
structure Vec3 where
  x : ℚ
  y : ℚ
  z : ℚ
deriving DecidableEq

/-- A GLSL `vec4` over exact rationals. -/
structure Vec4 where
  x : ℚ
  y : ℚ
  z : ℚ
  w : ℚ
deriving DecidableEq

/-- A GLSL `mat3`, written out as nine entries; `mulVec` below gives the
matrix-vector product, which is all the shaders use. -/
structure Mat3 where
  m00 : ℚ
  m01 : ℚ
  m02 : ℚ
  m10 : ℚ
  m11 : ℚ
  m12 : ℚ
  m20 : ℚ
  m21 : ℚ
  m22 : ℚ
deriving DecidableEq

/-- GLSL `mat3 * vec3`. -/
def Mat3.mulVec (m : Mat3) (v : Vec3) : Vec3 :=
  ⟨m.m00 * v.x + m.m01 * v.y + m.m02 * v.z,
   m.m10 * v.x + m.m11 * v.y + m.m12 * v.z,
   m.m20 * v.x + m.m21 * v.y + m.m22 * v.z⟩

/-- A GLSL `mat4`, written out as sixteen entries. -/
structure Mat4 where
  m00 : ℚ
  m01 : ℚ
  m02 : ℚ
  m03 : ℚ
  m10 : ℚ
  m11 : ℚ
  m12 : ℚ
  m13 : ℚ
  m20 : ℚ
  m21 : ℚ
  m22 : ℚ
  m23 : ℚ
  m30 : ℚ
  m31 : ℚ
  m32 : ℚ
  m33 : ℚ
deriving DecidableEq

/-- GLSL `mat4 * vec4`. -/
def Mat4.mulVec (m : Mat4) (v : Vec4) : Vec4 :=
  ⟨m.m00 * v.x + m.m01 * v.y + m.m02 * v.z + m.m03 * v.w,
   m.m10 * v.x + m.m11 * v.y + m.m12 * v.z + m.m13 * v.w,
   m.m20 * v.x + m.m21 * v.y + m.m22 * v.z + m.m23 * v.w,
   m.m30 * v.x + m.m31 * v.y + m.m32 * v.z + m.m33 * v.w⟩

/-- GLSL `clamp(x, lo, hi) = min(max(x, lo), hi)`. -/
def clampQ (x lo hi : ℚ) : ℚ := min (max x lo) hi

/-- GLSL scalar `mix(a, b, t) = a * (1 - t) + b * t`. -/
def mixQ (a b t : ℚ) : ℚ := a * (1 - t) + b * t

/-- GLSL `mix` on `vec4`, componentwise. -/
def mixV4 (a b : Vec4) (t : ℚ) : Vec4 :=
  ⟨mixQ a.x b.x t, mixQ a.y b.y t, mixQ a.z b.z t, mixQ a.w b.w t⟩

/-- GLSL `vec4 * scalar` (used for `color *= scissor` and
`color *= strokeAlpha`). -/
def Vec4.smul (c : Vec4) (s : ℚ) : Vec4 := ⟨c.x * s, c.y * s, c.z * s, c.w * s⟩

/-- GLSL componentwise `vec4 * vec4` (used for `color * uniforms.innerCol`). -/
def Vec4.mul (c d : Vec4) : Vec4 := ⟨c.x * d.x, c.y * d.y, c.z * d.z, c.w * d.w⟩

/-- The `FragmentUniformBlock` declared in both fragment-shader headers of
`shader_opengl.h` (fields in declaration order). -/
structure FragmentUniformBlock where
  scissorMat : Mat3
  paintMat : Mat3
  innerCol : Vec4
  outerCol : Vec4
  scissorExt : Vec2
  scissorScale : Vec2
  extent : Vec2
  radius : ℚ
  feather : ℚ
  strokeMult : ℚ
  strokeThr : ℚ
  texType : ℤ
  type : ℤ
deriving DecidableEq

/-- `scissorMask` as declared inside `openglNoAntiAliasingFragmentShaderBody`:
`sc = (abs((scissorMat * vec3(p,1)).xy) - scissorExt) * scissorScale;`
`sc = clamp(vec2(0.5) - sc, 0.0, 1.0); return sc.x * sc.y;`. -/
def scissorMaskNoAA (u : FragmentUniformBlock) (p : Vec2) : ℚ :=
  let s := u.scissorMat.mulVec ⟨p.x, p.y, 1⟩
  let scx := (|s.x| - u.scissorExt.x) * u.scissorScale.x
  let scy := (|s.y| - u.scissorExt.y) * u.scissorScale.y
  clampQ (1/2 - scx) 0 1 * clampQ (1/2 - scy) 0 1

/-- `scissorMask` as declared inside `openglAntiAliasingFragmentShaderBody`
(textually identical to the non-anti-aliased copy in the source). -/
def scissorMaskAA (u : FragmentUniformBlock) (p : Vec2) : ℚ :=
  let s := u.scissorMat.mulVec ⟨p.x, p.y, 1⟩
  let scx := (|s.x| - u.scissorExt.x) * u.scissorScale.x
  let scy := (|s.y| - u.scissorExt.y) * u.scissorScale.y
  clampQ (1/2 - scx) 0 1 * clampQ (1/2 - scy) 0 1

/-- `sdroundrect` as declared inside `openglNoAntiAliasingFragmentShaderBody`:
`ext2 = extent - vec2(radius); d = abs(pt) - ext2;`
`return min(max(d.x,d.y),0) + length(max(d,0)) - radius;`
with `length v = sqrt(v.x^2 + v.y^2)` modelled through the square-root
parameter `sqrtf`. -/
def sdroundrectNoAA (sqrtf : ℚ → ℚ) (u : FragmentUniformBlock) (pt : Vec2) : ℚ :=
  let ext2x := u.extent.x - u.radius
  let ext2y := u.extent.y - u.radius
  let dx := |pt.x| - ext2x
  let dy := |pt.y| - ext2y
  min (max dx dy) 0 + sqrtf (max dx 0 * max dx 0 + max dy 0 * max dy 0) - u.radius

/-- `sdroundrect` as declared inside `openglAntiAliasingFragmentShaderBody`
(textually identical to the non-anti-aliased copy in the source). -/
def sdroundrectAA (sqrtf : ℚ → ℚ) (u : FragmentUniformBlock) (pt : Vec2) : ℚ :=
  let ext2x := u.extent.x - u.radius
  let ext2y := u.extent.y - u.radius
  let dx := |pt.x| - ext2x
  let dy := |pt.y| - ext2y
  min (max dx dy) 0 + sqrtf (max dx 0 * max dx 0 + max dy 0 * max dy 0) - u.radius

/-- `strokeMask` as declared inside `openglNoAntiAliasingFragmentShaderBody`:
`min(1, (1 - abs(ftcoord.x*2-1)) * strokeMult) * min(1, ftcoord.y)`. -/
def strokeMaskNoAA (u : FragmentUniformBlock) (ftcoord : Vec2) : ℚ :=
  min 1 ((1 - |ftcoord.x * 2 - 1|) * u.strokeMult) * min 1 ftcoord.y

/-- `strokeMask` as declared inside `openglAntiAliasingFragmentShaderBody`
(textually identical to the non-anti-aliased copy in the source). -/
def strokeMaskAA (u : FragmentUniformBlock) (ftcoord : Vec2) : ℚ :=
  min 1 ((1 - |ftcoord.x * 2 - 1|) * u.strokeMult) * min 1 ftcoord.y

/-- The `if (texType == 1) ... else if (texType == 2) ...` chain that both
texture-sampling branches of `fragmentShaderNoAntiAliasing` apply to the
sampled color (the source repeats it verbatim in its `type == 1` and final
`else` branches). -/
def texColorNoAA (texType : ℤ) (color : Vec4) : Vec4 :=
  if texType = 1 then ⟨color.x * color.w, color.y * color.w, color.z * color.w, color.w⟩
  else if texType = 2 then ⟨color.x, color.x, color.x, color.x⟩
  else color

/-- The `if (texType == 1) ... else if (texType == 2) ...` chain that both
texture-sampling branches of `fragmentShaderAntiAliasing` apply to the
sampled color (textually identical to the non-anti-aliased chain). -/
def texColorAA (texType : ℤ) (color : Vec4) : Vec4 :=
  if texType = 1 then ⟨color.x * color.w, color.y * color.w, color.z * color.w, color.w⟩
  else if texType = 2 then ⟨color.x, color.x, color.x, color.x⟩
  else color

/-- The paint-space point `pt = (paintMat * vec3(fpos,1)).xy` computed by the
`type == 0` (gradient) branch of both fragment bodies. -/
def paintPt (u : FragmentUniformBlock) (fpos : Vec2) : Vec2 :=
  let p3 := u.paintMat.mulVec ⟨fpos.x, fpos.y, 1⟩
  ⟨p3.x, p3.y⟩

/-- The gradient blend factor of the `type == 0` branch of both fragment
bodies: `d = clamp((feather*0.5 + sdroundrect(pt)) / feather, 0, 1)`. -/
def gradientD (sqrtf : ℚ → ℚ) (u : FragmentUniformBlock) (fpos : Vec2) : ℚ :=
  clampQ ((u.feather * (1/2) + sdroundrectNoAA sqrtf u (paintPt u fpos)) / u.feather) 0 1

/-- The pre-masking gradient color of the `type == 0` branch of both fragment
bodies: `mix(innerCol, outerCol, d)`. -/
def gradientColor (sqrtf : ℚ → ℚ) (u : FragmentUniformBlock) (fpos : Vec2) : Vec4 :=
  mixV4 u.innerCol u.outerCol (gradientD sqrtf u fpos)

/-- `fragmentShaderNoAntiAliasing` from `openglNoAntiAliasingFragmentShaderBody`
(lines 137-166 of `shader_opengl.h`), with the texture modelled by `tex`. -/
def fragmentShaderNoAntiAliasing (sqrtf : ℚ → ℚ) (tex : Vec2 → Vec4)
    (u : FragmentUniformBlock) (fpos ftcoord : Vec2) : Vec4 :=
  let scissor := scissorMaskNoAA u fpos
  if scissor = 0 then ⟨0, 0, 0, 0⟩
  else if u.type = 0 then
    let p3 := u.paintMat.mulVec ⟨fpos.x, fpos.y, 1⟩
    let pt : Vec2 := ⟨p3.x, p3.y⟩
    let d := clampQ ((u.feather * (1/2) + sdroundrectNoAA sqrtf u pt) / u.feather) 0 1
    let color := mixV4 u.innerCol u.outerCol d
    color.smul scissor
  else if u.type = 1 then
    let p3 := u.paintMat.mulVec ⟨fpos.x, fpos.y, 1⟩
    let pt : Vec2 := ⟨p3.x / u.extent.x, p3.y / u.extent.y⟩
    let color := texColorNoAA u.texType (tex pt)
    let color := color.smul scissor
    color.mul u.innerCol
  else
    let color := texColorNoAA u.texType (tex ftcoord)
    let color := color.smul scissor
    color.mul u.innerCol

/-- `fragmentShaderAntiAliasing` from `openglAntiAliasingFragmentShaderBody`
(lines 192-231 of `shader_opengl.h`), with the texture modelled by `tex`. -/
def fragmentShaderAntiAliasing (sqrtf : ℚ → ℚ) (tex : Vec2 → Vec4)
    (u : FragmentUniformBlock) (fpos ftcoord : Vec2) : Vec4 :=
  let scissor := scissorMaskAA u fpos
  if scissor = 0 then ⟨0, 0, 0, 0⟩
  else if u.type = 2 then
    let color := texColorAA u.texType (tex ftcoord)
    let color := color.smul scissor
    color.mul u.innerCol
  else
    let strokeAlpha := strokeMaskAA u ftcoord
    if strokeAlpha < u.strokeThr then ⟨0, 0, 0, 0⟩
    else if u.type = 0 then
      let p3 := u.paintMat.mulVec ⟨fpos.x, fpos.y, 1⟩
      let pt : Vec2 := ⟨p3.x, p3.y⟩
      let d := clampQ ((u.feather * (1/2) + sdroundrectAA sqrtf u pt) / u.feather) 0 1
      let color := mixV4 u.innerCol u.outerCol d
      let color := color.smul scissor
      color.smul strokeAlpha
    else
      let p3 := u.paintMat.mulVec ⟨fpos.x, fpos.y, 1⟩
      let pt : Vec2 := ⟨p3.x / u.extent.x, p3.y / u.extent.y⟩
      let color := texColorAA u.texType (tex pt)
      let color := color.smul scissor
      let color := color.smul strokeAlpha
      color.mul u.innerCol

/-- The three paint kinds named in the source comments:
`MNVG_SHADER_FILLGRAD`, `MNVG_SHADER_FILLIMG`, `MNVG_SHADER_IMG`. -/
inductive PaintKind where
  | fillgrad : PaintKind
  | fillimg : PaintKind
  | img : PaintKind
deriving DecidableEq

/-- Which paint kind `fragmentShaderNoAntiAliasing` dispatches a given `type`
value to: its branch chain is `if (type == 0) ... else if (type == 1) ...
else ...`, where the final `else` is the screen-space image branch. -/
def paintKindNoAA (t : ℤ) : PaintKind :=
  if t = 0 then .fillgrad else if t = 1 then .fillimg else .img

/-- Which paint kind `fragmentShaderAntiAliasing` dispatches a given `type`
value to: its branch chain is `if (type == 2) ... ` first, then after the
stroke test `if (type == 0) ... else ...`, where the final `else` is the
paint-space image-fill branch. -/
def paintKindAA (t : ℤ) : PaintKind :=
  if t = 2 then .img else if t = 0 then .fillgrad else .fillimg

/-- The normalized device coordinate computed by `openglVertexShaderBody`
before the uniform matrix is applied:
`vec4(2*pos.x/viewSize.x - 1, 1 - 2*pos.y/viewSize.y, 0, 1)`. -/
def normalizedPos (viewSize pos : Vec2) : Vec4 :=
  ⟨2 * pos.x / viewSize.x - 1, 1 - 2 * pos.y / viewSize.y, 0, 1⟩

/-- `gl_Position` as computed by `openglVertexShaderBody`: the viewport
normalization above followed by `gl_Position = uniforms.matrix * gl_Position`. -/
def vertexShaderPosition (matrix : Mat4) (viewSize pos : Vec2) : Vec4 :=
  matrix.mulVec (normalizedPos viewSize pos)

/-- The logical draw size computed in `NanovgSession::drawNanovg`
(`NanovgSession.cpp` lines 161-162):
`width = framebuffferWidth / pxRatio; height = framebufferHeight / pxRatio`. -/
def logicalDrawSize (framebuffferWidth framebufferHeight pxr : ℚ) : ℚ × ℚ :=
  (framebuffferWidth / pxr, framebufferHeight / pxr)

/-- The device-pixel ratio hardcoded at `NanovgSession.cpp` line 159:
`float pxRatio = 2.0f;`. -/
def sessionPxr : ℚ := 2

/-- The (width, height) pair `NanovgSession::drawNanovg` passes to
`nvgBeginFrame`. -/
def drawNanovgSize (framebuffferWidth framebufferHeight : ℚ) : ℚ × ℚ :=
  logicalDrawSize framebuffferWidth framebufferHeight sessionPxr

/-- The zero `mat3`. -/
def mat3Zero : Mat3 := ⟨0, 0, 0, 0, 0, 0, 0, 0, 0⟩

/-- The identity `mat3`. -/
def mat3Id : Mat3 := ⟨1, 0, 0, 0, 1, 0, 0, 0, 1⟩

/-- The identity `mat4`. -/
def mat4Id : Mat4 := ⟨1, 0, 0, 0, 0, 1, 0, 0, 0, 0, 1, 0, 0, 0, 0, 1⟩

/-- A concrete uniform assignment used to evaluate the embedded shaders on
explicit inputs.  Its scissor data gives `scissorMask = 1/4` everywhere
(the zero scissor matrix and zero scissor scale make both clamped factors
equal `1/2`), so the scissor early-out is not taken. -/
def uBase : FragmentUniformBlock :=
  { scissorMat := mat3Zero
    paintMat := mat3Id
    innerCol := ⟨1, 1, 1, 1⟩
    outerCol := ⟨0, 0, 0, 0⟩
    scissorExt := ⟨0, 0⟩
    scissorScale := ⟨0, 0⟩
    extent := ⟨1, 1⟩
    radius := 0
    feather := 1
    strokeMult := 1
    strokeThr := 0
    texType := 0
    type := 0 }

/-- A concrete texture whose sample depends on the sampling coordinate, so
that paint-space sampling and screen-space sampling are distinguishable. -/
def texCoordProbe : Vec2 → Vec4 := fun p => ⟨p.x, p.y, 0, 1⟩

/-- A concrete uniform assignment whose scissor data rejects the fragment
position `(10, 10)`: with the identity scissor matrix, `scissorExt = (1,1)`
and `scissorScale = (1,1)`, the mask clamps to `0`. -/
def uScissorReject : FragmentUniformBlock :=
  { uBase with scissorMat := mat3Id, scissorExt := ⟨1, 1⟩, scissorScale := ⟨1, 1⟩ }

/-- A concrete uniform assignment for the gradient scenario: `feather = 2`,
`radius = 10`, `extent = (20, 20)`, `innerCol = (1,0,0,1)`,
`outerCol = (0,0,1,1)`.  At `fpos = (0, 20)` the signed distance is `0`. -/
def uGradient : FragmentUniformBlock :=
  { uBase with
    innerCol := ⟨1, 0, 0, 1⟩
    outerCol := ⟨0, 0, 1, 1⟩
    extent := ⟨20, 20⟩
    radius := 10
    feather := 2 }

/-- Unfolding lemma for rational `abs`, used to evaluate the embedded shaders
on concrete inputs. -/
theorem ratAbs_ite (a : ℚ) : |a| = if a < 0 then -a else a := by
  rcases lt_or_le a 0 with h | h
  · rw [abs_of_neg h, if_pos h]
  · rw [abs_of_nonneg h, if_neg (not_lt.mpr h)]

/-- Both components of the clamped scissor product lie in `[0, 1]`; shared
arithmetic lemma for the scissor-mask range result. -/
theorem clampQ_unit_mul_mem (a b : ℚ) :
    0 ≤ clampQ a 0 1 * clampQ b 0 1 ∧ clampQ a 0 1 * clampQ b 0 1 ≤ 1 := by
  have ha0 : 0 ≤ clampQ a 0 1 := le_min (le_max_right a 0) zero_le_one
  have hb0 : 0 ≤ clampQ b 0 1 := le_min (le_max_right b 0) zero_le_one
  have ha1 : clampQ a 0 1 ≤ 1 := min_le_right _ _
  have hb1 : clampQ b 0 1 ≤ 1 := min_le_right _ _
  exact ⟨mul_nonneg ha0 hb0, mul_le_one₀ ha1 hb0 hb1⟩

/-- Claim C1: the `scissorMask` and `sdroundrect` helpers declared in the
anti-aliased fragment body and in the non-anti-aliased fragment body are the
same function: for every point and every assignment of the uniforms (and, for
`sdroundrect`, every square-root function), their outputs are equal. -/
theorem claim1_helpers_agree :
    (∀ (u : FragmentUniformBlock) (p : Vec2), scissorMaskNoAA u p = scissorMaskAA u p) ∧
    (∀ (sqrtf : ℚ → ℚ) (u : FragmentUniformBlock) (pt : Vec2),
      sdroundrectNoAA sqrtf u pt = sdroundrectAA sqrtf u pt) :=
  ⟨fun _ _ => rfl, fun _ _ _ => rfl⟩

/-- Counterexample to claim C2 as stated: at `type = 3` the two fragment
bodies do NOT select the same paint-kind interpretation.  The non-anti-aliased
chain `if (type==0) ... else if (type==1) ... else ...` falls through to the
screen-space image branch, while the anti-aliased chain `if (type==2) ...
else { ... if (type==0) ... else ... }` falls through to the paint-space
image-fill branch.  On a texture that returns its sampling coordinate and
inputs where paint-space and screen-space coordinates differ, the two bodies
return different colors. -/
theorem claim2_counterexample :
    paintKindNoAA 3 ≠ paintKindAA 3 ∧
    fragmentShaderNoAntiAliasing (fun _ => 0) texCoordProbe { uBase with type := 3 }
        ⟨1/4, 1/4⟩ ⟨1/2, 1⟩ ≠
      fragmentShaderAntiAliasing (fun _ => 0) texCoordProbe { uBase with type := 3 }
        ⟨1/4, 1/4⟩ ⟨1/2, 1⟩ := by
  refine ⟨by decide, ?_⟩
  norm_num [fragmentShaderNoAntiAliasing, fragmentShaderAntiAliasing, scissorMaskNoAA,
    scissorMaskAA, strokeMaskAA, texColorNoAA, texColorAA, sdroundrectNoAA, sdroundrectAA,
    Mat3.mulVec, Vec4.smul, Vec4.mul, clampQ, mixV4, mixQ, uBase, mat3Zero, mat3Id,
    texCoordProbe, min_def, max_def, ratAbs_ite]

/-- Claim C2 (amended): for `type` IN the defined range `{0, 1, 2}` the two
fragment bodies select the same paint-kind interpretation, and for EVERY
value of `texType` both bodies apply the same texture-channel interpretation
to a sampled color; for `type` outside `{0, 1, 2}` the bodies disagree (the
non-anti-aliased body falls through to the screen-space image draw, the
anti-aliased body to the paint-space image fill), as the counterexample
shows. -/
theorem claim2_amended :
    (∀ t : ℤ, t = 0 ∨ t = 1 ∨ t = 2 → paintKindNoAA t = paintKindAA t) ∧
    (∀ (tt : ℤ) (c : Vec4), texColorNoAA tt c = texColorAA tt c) := by
  refine ⟨?_, fun _ _ => rfl⟩
  rintro t (rfl | rfl | rfl) <;> decide

/-- Concrete instantiation of `claim2_amended` at `type = 0` and
`texType = 1`. -/
theorem claim2_witness :
    paintKindNoAA 0 = paintKindAA 0 ∧
    texColorNoAA 1 ⟨1, 1, 1, 1/2⟩ = texColorAA 1 ⟨1, 1, 1, 1/2⟩ :=
  ⟨claim2_amended.1 0 (Or.inl rfl), claim2_amended.2 1 ⟨1, 1, 1, 1/2⟩⟩

/-- Claim C3: whenever `scissorMask(fpos)` is `0`, both fragment bodies
return the transparent color `(0,0,0,0)`, for every paint kind `type` (the
scissor early-out precedes every paint branch in both bodies). -/
theorem claim3_scissor_zero_transparent (sqrtf : ℚ → ℚ) (tex : Vec2 → Vec4)
    (u : FragmentUniformBlock) (fpos ftcoord : Vec2)
    (h : scissorMaskNoAA u fpos = 0) :
    fragmentShaderNoAntiAliasing sqrtf tex u fpos ftcoord = ⟨0, 0, 0, 0⟩ ∧
    fragmentShaderAntiAliasing sqrtf tex u fpos ftcoord = ⟨0, 0, 0, 0⟩ := by
  have h2 : scissorMaskAA u fpos = 0 := h
  constructor
  · simp [fragmentShaderNoAntiAliasing, h]
  · simp [fragmentShaderAntiAliasing, h2]

/-- Concrete instantiation of `claim3_scissor_zero_transparent`: the point
`(10, 10)` lies outside `scissorExt = (1, 1)` after scaling, the mask is `0`,
and both bodies return transparent. -/
theorem claim3_witness :
    scissorMaskNoAA uScissorReject ⟨10, 10⟩ = 0 ∧
    fragmentShaderNoAntiAliasing (fun _ => 0) texCoordProbe uScissorReject
      ⟨10, 10⟩ ⟨1/2, 1⟩ = ⟨0, 0, 0, 0⟩ ∧
    fragmentShaderAntiAliasing (fun _ => 0) texCoordProbe uScissorReject
      ⟨10, 10⟩ ⟨1/2, 1⟩ = ⟨0, 0, 0, 0⟩ := by
  have h : scissorMaskNoAA uScissorReject ⟨10, 10⟩ = 0 := by
    norm_num [scissorMaskNoAA, uScissorReject, uBase, mat3Id, mat3Zero, Mat3.mulVec, clampQ,
      min_def, max_def, ratAbs_ite]
  have h2 := claim3_scissor_zero_transparent (fun _ => 0) texCoordProbe uScissorReject
    ⟨10, 10⟩ ⟨1/2, 1⟩ h
  exact ⟨h, h2.1, h2.2⟩

/-- Counterexample to claim C4 as stated: in the anti-aliased body the
`type == 2` (screen-space image) branch returns BEFORE the stroke-coverage
test, so a fragment that passes the scissor test but has stroke coverage
below `strokeThr` is not discarded when `type = 2`: with `strokeThr = 10`
(every coverage value is below it) the body still returns a non-transparent
color. -/
theorem claim4_counterexample :
    strokeMaskAA { uBase with type := 2, strokeThr := 10 } ⟨1/2, 1⟩ <
      ({ uBase with type := 2, strokeThr := 10 } : FragmentUniformBlock).strokeThr ∧
    scissorMaskAA { uBase with type := 2, strokeThr := 10 } ⟨1/4, 1/4⟩ ≠ 0 ∧
    fragmentShaderAntiAliasing (fun _ => 0) (fun _ => ⟨1, 1, 1, 1⟩)
      { uBase with type := 2, strokeThr := 10 } ⟨1/4, 1/4⟩ ⟨1/2, 1⟩ ≠ ⟨0, 0, 0, 0⟩ := by
  refine ⟨?_, ?_, ?_⟩ <;>
    norm_num [fragmentShaderAntiAliasing, scissorMaskAA, strokeMaskAA, texColorAA,
      Mat3.mulVec, Vec4.smul, Vec4.mul, clampQ, uBase, mat3Zero, mat3Id,
      min_def, max_def, ratAbs_ite]

/-- Claim C4 (amended): in the anti-aliased body, for every fragment that
passes the scissor test AND whose paint kind is not the screen-space image
draw (`type ≠ 2`), stroke coverage below `strokeThr` forces the transparent
color `(0,0,0,0)`; the `type = 2` branch returns before the stroke test, as
the counterexample shows.  The non-anti-aliased body's output never depends
on `strokeMult` or `strokeThr`. -/
theorem claim4_amended :
    (∀ (sqrtf : ℚ → ℚ) (tex : Vec2 → Vec4) (u : FragmentUniformBlock) (fpos ftcoord : Vec2),
      scissorMaskAA u fpos ≠ 0 → u.type ≠ 2 → strokeMaskAA u ftcoord < u.strokeThr →
      fragmentShaderAntiAliasing sqrtf tex u fpos ftcoord = ⟨0, 0, 0, 0⟩) ∧
    (∀ (sqrtf : ℚ → ℚ) (tex : Vec2 → Vec4) (u : FragmentUniformBlock) (fpos ftcoord : Vec2)
      (a b : ℚ),
      fragmentShaderNoAntiAliasing sqrtf tex { u with strokeMult := a, strokeThr := b }
          fpos ftcoord =
        fragmentShaderNoAntiAliasing sqrtf tex u fpos ftcoord) := by
  constructor
  · intro sqrtf tex u fpos ftcoord h1 h2 h3
    simp [fragmentShaderAntiAliasing, h1, h2, h3]
  · intro sqrtf tex u fpos ftcoord a b
    cases u
    rfl

/-- Concrete instantiation of `claim4_amended`: a gradient fragment
(`type = 0`) with `strokeThr = 10` is discarded by the anti-aliased body, and
changing `strokeMult`/`strokeThr` to `5`/`7` leaves the non-anti-aliased
output unchanged. -/
theorem claim4_witness :
    fragmentShaderAntiAliasing (fun _ => 0) texCoordProbe { uBase with strokeThr := 10 }
      ⟨1/4, 1/4⟩ ⟨1/2, 1⟩ = ⟨0, 0, 0, 0⟩ ∧
    fragmentShaderNoAntiAliasing (fun _ => 0) texCoordProbe
        { uBase with strokeMult := 5, strokeThr := 7 } ⟨1/4, 1/4⟩ ⟨1/2, 1⟩ =
      fragmentShaderNoAntiAliasing (fun _ => 0) texCoordProbe uBase ⟨1/4, 1/4⟩ ⟨1/2, 1⟩ := by
  constructor
  · refine claim4_amended.1 (fun _ => 0) texCoordProbe { uBase with strokeThr := 10 }
      ⟨1/4, 1/4⟩ ⟨1/2, 1⟩ ?_ ?_ ?_ <;>
      norm_num [scissorMaskAA, strokeMaskAA, Mat3.mulVec, clampQ, uBase, mat3Zero,
        min_def, max_def, ratAbs_ite]
  · exact claim4_amended.2 (fun _ => 0) texCoordProbe uBase ⟨1/4, 1/4⟩ ⟨1/2, 1⟩ 5 7

/-- Claim C5: in the gradient branch (`type = 0`) of either fragment variant,
with `feather = 2`, `radius = 10`, `innerCol = (1,0,0,1)`,
`outerCol = (0,0,1,1)`, at any point where `sdroundrect` of the paint-space
point is `0`, the blend factor is `1/2` and the pre-masking gradient color is
`(1/2, 0, 1/2, 1)`; the fragment outputs are exactly that color with the
scissor mask (and, for the anti-aliased body, the stroke mask) applied
afterwards. -/
theorem claim5_gradient_boundary (sqrtf : ℚ → ℚ) (tex : Vec2 → Vec4)
    (u : FragmentUniformBlock) (fpos ftcoord : Vec2)
    (hf : u.feather = 2) (hr : u.radius = 10)
    (hi : u.innerCol = ⟨1, 0, 0, 1⟩) (ho : u.outerCol = ⟨0, 0, 1, 1⟩)
    (hsd : sdroundrectNoAA sqrtf u (paintPt u fpos) = 0)
    (hty : u.type = 0) (hsc : scissorMaskNoAA u fpos ≠ 0)
    (hst : ¬ strokeMaskAA u ftcoord < u.strokeThr) :
    gradientD sqrtf u fpos = 1/2 ∧
    gradientColor sqrtf u fpos = ⟨1/2, 0, 1/2, 1⟩ ∧
    fragmentShaderNoAntiAliasing sqrtf tex u fpos ftcoord =
      (gradientColor sqrtf u fpos).smul (scissorMaskNoAA u fpos) ∧
    fragmentShaderAntiAliasing sqrtf tex u fpos ftcoord =
      ((gradientColor sqrtf u fpos).smul (scissorMaskAA u fpos)).smul
        (strokeMaskAA u ftcoord) := by
  have hd : gradientD sqrtf u fpos = 1/2 := by
    unfold gradientD
    rw [hsd, hf]
    norm_num [clampQ, min_def, max_def]
  have hty2 : u.type ≠ 2 := by rw [hty]; decide
  refine ⟨hd, ?_, ?_, ?_⟩
  · unfold gradientColor
    rw [hd, hi, ho]
    norm_num [mixV4, mixQ]
  · simp only [fragmentShaderNoAntiAliasing, gradientColor, gradientD, paintPt]
    rw [if_neg hsc, if_pos hty]
  · have hscA : scissorMaskAA u fpos ≠ 0 := hsc
    simp only [fragmentShaderAntiAliasing, gradientColor, gradientD, paintPt,
      sdroundrectNoAA, sdroundrectAA]
    rw [if_neg hscA, if_neg hty2, if_neg hst, if_pos hty]

/-- Concrete instantiation of `claim5_gradient_boundary` at the boundary
point `fpos = (0, 20)` of the rounded rectangle with `extent = (20, 20)` and
`radius = 10`, using the square root `fun _ => 10` (correct on the one
squared length, `100`, that the input reaches). -/
theorem claim5_witness :
    gradientD (fun _ => 10) uGradient ⟨0, 20⟩ = 1/2 ∧
    gradientColor (fun _ => 10) uGradient ⟨0, 20⟩ = ⟨1/2, 0, 1/2, 1⟩ ∧
    fragmentShaderNoAntiAliasing (fun _ => 10) texCoordProbe uGradient ⟨0, 20⟩ ⟨1/2, 1⟩ =
      (gradientColor (fun _ => 10) uGradient ⟨0, 20⟩).smul
        (scissorMaskNoAA uGradient ⟨0, 20⟩) ∧
    fragmentShaderAntiAliasing (fun _ => 10) texCoordProbe uGradient ⟨0, 20⟩ ⟨1/2, 1⟩ =
      ((gradientColor (fun _ => 10) uGradient ⟨0, 20⟩).smul
          (scissorMaskAA uGradient ⟨0, 20⟩)).smul
        (strokeMaskAA uGradient ⟨1/2, 1⟩) := by
  refine claim5_gradient_boundary (fun _ => 10) texCoordProbe uGradient ⟨0, 20⟩ ⟨1/2, 1⟩
    rfl rfl rfl rfl ?_ rfl ?_ ?_ <;>
    norm_num [sdroundrectNoAA, scissorMaskNoAA, strokeMaskAA, paintPt, Mat3.mulVec, clampQ,
      uGradient, uBase, mat3Zero, mat3Id, min_def, max_def, ratAbs_ite]

/-- Claim C6: in the texture-channel chain applied by every texture-sampling
branch of either fragment variant, `texType = 1` premultiplies the sampled
color by its alpha: `(r,g,b,a)` becomes `(r*a, g*a, b*a, a)`; in particular
`(1,1,1,1/2)` becomes `(1/2,1/2,1/2,1/2)`. -/
theorem claim6_premultiply :
    (∀ c : Vec4, texColorNoAA 1 c = ⟨c.x * c.w, c.y * c.w, c.z * c.w, c.w⟩ ∧
      texColorAA 1 c = ⟨c.x * c.w, c.y * c.w, c.z * c.w, c.w⟩) ∧
    texColorNoAA 1 ⟨1, 1, 1, 1/2⟩ = ⟨1/2, 1/2, 1/2, 1/2⟩ ∧
    texColorAA 1 ⟨1, 1, 1, 1/2⟩ = ⟨1/2, 1/2, 1/2, 1/2⟩ := by
  refine ⟨fun c => ⟨rfl, rfl⟩, ?_, ?_⟩ <;> norm_num [texColorNoAA, texColorAA]

/-- Claim C7: in the texture-channel chain applied by every texture-sampling
branch of either fragment variant, every `texType` other than `1` and `2`
(for example `3` or `-1`) leaves the sampled color unchanged, identical to
the `texType = 0` passthrough. -/
theorem claim7_fallthrough (t : ℤ) (c : Vec4) (h1 : t ≠ 1) (h2 : t ≠ 2) :
    texColorNoAA t c = c ∧ texColorAA t c = c ∧
    texColorNoAA 0 c = c ∧ texColorAA 0 c = c := by
  refine ⟨?_, ?_, rfl, rfl⟩ <;> simp [texColorNoAA, texColorAA, h1, h2]

/-- Concrete instantiation of `claim7_fallthrough` at the out-of-range value
`texType = 3`. -/
theorem claim7_witness :
    texColorNoAA 3 ⟨1, 2, 3, 4⟩ = ⟨1, 2, 3, 4⟩ ∧
    texColorAA 3 ⟨1, 2, 3, 4⟩ = ⟨1, 2, 3, 4⟩ ∧
    texColorNoAA 0 ⟨1, 2, 3, 4⟩ = ⟨1, 2, 3, 4⟩ ∧
    texColorAA 0 ⟨1, 2, 3, 4⟩ = ⟨1, 2, 3, 4⟩ :=
  claim7_fallthrough 3 ⟨1, 2, 3, 4⟩ (by decide) (by decide)

/-- Claim C8: for every positive pixel ratio, the logical draw size is the
viewport size divided by the pixel ratio, componentwise and exactly (the
quotient times the ratio recovers the viewport size); `drawNanovg` invokes
this computation with its hardcoded positive ratio `2`. -/
theorem claim8_logical_draw_size (pxr w h : ℚ) (hp : 0 < pxr) :
    logicalDrawSize w h pxr = (w / pxr, h / pxr) ∧
    (logicalDrawSize w h pxr).1 * pxr = w ∧
    (logicalDrawSize w h pxr).2 * pxr = h ∧
    drawNanovgSize w h = (w / sessionPxr, h / sessionPxr) ∧
    0 < sessionPxr := by
  have hne : pxr ≠ 0 := ne_of_gt hp
  exact ⟨rfl, div_mul_cancel₀ w hne, div_mul_cancel₀ h hne, rfl, by norm_num [sessionPxr]⟩

/-- Concrete instantiation of `claim8_logical_draw_size` at ratio `2` and a
`100 x 50` viewport. -/
theorem claim8_witness :
    logicalDrawSize 100 50 2 = (100 / 2, 50 / 2) ∧
    (logicalDrawSize 100 50 2).1 * 2 = 100 ∧
    (logicalDrawSize 100 50 2).2 * 2 = 50 ∧
    drawNanovgSize 100 50 = (100 / sessionPxr, 50 / sessionPxr) ∧
    0 < sessionPxr :=
  claim8_logical_draw_size 2 100 50 (by norm_num)

/-- Claim C9: the vertex shader first normalizes the pixel position to
clip-ish coordinates mapping `(0,0)` to `(-1,1)` and `viewSize` to `(1,-1)`
(y flipped), and only then applies the uniform matrix: `gl_Position` is
always `matrix * normalizedPos viewSize pos`. -/
theorem claim9_vertex_normalization (m : Mat4) (viewSize pos : Vec2)
    (hx : viewSize.x ≠ 0) (hy : viewSize.y ≠ 0) :
    vertexShaderPosition m viewSize pos = m.mulVec (normalizedPos viewSize pos) ∧
    normalizedPos viewSize ⟨0, 0⟩ = ⟨-1, 1, 0, 1⟩ ∧
    normalizedPos viewSize ⟨viewSize.x, viewSize.y⟩ = ⟨1, -1, 0, 1⟩ ∧
    vertexShaderPosition m viewSize ⟨0, 0⟩ = m.mulVec ⟨-1, 1, 0, 1⟩ ∧
    vertexShaderPosition m viewSize ⟨viewSize.x, viewSize.y⟩ = m.mulVec ⟨1, -1, 0, 1⟩ := by
  have h0 : normalizedPos viewSize ⟨0, 0⟩ = ⟨-1, 1, 0, 1⟩ := by
    unfold normalizedPos
    norm_num
  have h1 : normalizedPos viewSize ⟨viewSize.x, viewSize.y⟩ = ⟨1, -1, 0, 1⟩ := by
    unfold normalizedPos
    rw [mul_div_assoc, div_self hx, mul_div_assoc, div_self hy]
    norm_num
  exact ⟨rfl, h0, h1, by rw [vertexShaderPosition, h0], by rw [vertexShaderPosition, h1]⟩

/-- Concrete instantiation of `claim9_vertex_normalization` with the identity
matrix and a `4 x 2` view size. -/
theorem claim9_witness :
    vertexShaderPosition mat4Id ⟨4, 2⟩ ⟨1, 1⟩ = mat4Id.mulVec (normalizedPos ⟨4, 2⟩ ⟨1, 1⟩) ∧
    normalizedPos ⟨4, 2⟩ ⟨0, 0⟩ = ⟨-1, 1, 0, 1⟩ ∧
    normalizedPos ⟨4, 2⟩ ⟨(Vec2.mk 4 2).x, (Vec2.mk 4 2).y⟩ = ⟨1, -1, 0, 1⟩ ∧
    vertexShaderPosition mat4Id ⟨4, 2⟩ ⟨0, 0⟩ = mat4Id.mulVec ⟨-1, 1, 0, 1⟩ ∧
    vertexShaderPosition mat4Id ⟨4, 2⟩ ⟨(Vec2.mk 4 2).x, (Vec2.mk 4 2).y⟩ =
      mat4Id.mulVec ⟨1, -1, 0, 1⟩ :=
  claim9_vertex_normalization mat4Id ⟨4, 2⟩ ⟨1, 1⟩ (by norm_num) (by norm_num)

/-- Claim C10: in both fragment-shader variants, `scissorMask` always returns
a value in the closed interval `[0, 1]`, for every fragment position and
every assignment of the scissor uniforms. -/
theorem claim10_scissor_mask_range (u : FragmentUniformBlock) (p : Vec2) :
    0 ≤ scissorMaskNoAA u p ∧ scissorMaskNoAA u p ≤ 1 ∧
    0 ≤ scissorMaskAA u p ∧ scissorMaskAA u p ≤ 1 := by
  have h1 := clampQ_unit_mul_mem
    ((1:ℚ)/2 - (|(u.scissorMat.mulVec ⟨p.x, p.y, 1⟩).x| - u.scissorExt.x) * u.scissorScale.x)
    ((1:ℚ)/2 - (|(u.scissorMat.mulVec ⟨p.x, p.y, 1⟩).y| - u.scissorExt.y) * u.scissorScale.y)
  exact ⟨h1.1, h1.2, h1.1, h1.2⟩
